import Mathlib

/-!
Shallow embedding of the order / catalog / authorization core of the
Alx_campstone e-commerce backend (Django + DRF), translated from
src/products/models.py, src/products/views.py, src/products/serializers.py,
src/users/models.py and src/users/serializers.py.

Conventions of the embedding:
* database rows are Lean structures, tables are lists of rows;
* machine integers are Int/Nat (Python ints are unbounded, so no wrap);
* Django `DecimalField` values are rationals (quantisation to two decimal
  places is not relied on by any theorem);
* request-body values carry Python truthiness: `request.data.get` returns
  an `Option PyVal`, `if not quantity` is `PyVal.truthy`, `int(quantity)`
  is `PyVal.toIntOpt` (none = ValueError);
* fallible handlers return an outcome inductive paired with the new state.
-/

namespace Campstone

/-- A request-body value as the Python handler sees it: a JSON/form string
or a JSON integer. -/
inductive PyVal where
  | str (s : String)
  | int (n : Int)
deriving DecidableEq, Repr

/-- Python truthiness (`if not quantity:`): empty strings and the integer
zero are falsy, everything else is truthy. -/
def PyVal.truthy : PyVal → Bool
  | .str s => !(s == "")
  | .int n => !(n == 0)

/-- The whitespace characters Python strips around a numeral. -/
def isPySpace (c : Char) : Bool :=
  c == ' ' || c == '\t' || c == '\n' || c == '\r' ||
  c == (Char.ofNat 11) || c == (Char.ofNat 12)

/-- Leading and trailing whitespace removed, as int() does. -/
def stripPySpace (cs : List Char) : List Char :=
  ((cs.dropWhile isPySpace).reverse.dropWhile isPySpace).reverse

/-- Digits after the first one, folded into a Nat; a single underscore is
allowed between two digits (Python numeral grammar: digit (["_"] digit)*);
`none` on anything else — a stray character, a doubled or trailing
underscore. -/
def pyIntDigitsAux : List Char → Nat → Option Nat
  | [], acc => some acc
  | '_' :: c :: rest, acc =>
    if c.isDigit then pyIntDigitsAux rest (acc * 10 + (c.toNat - 48)) else none
  | ['_'], _ => none
  | c :: rest, acc =>
    if c.isDigit then pyIntDigitsAux rest (acc * 10 + (c.toNat - 48)) else none

/-- A decimal numeral: one digit, then digits with optional single
underscores between them. -/
def pyIntDigits : List Char → Option Nat
  | [] => none
  | c :: rest => if c.isDigit then pyIntDigitsAux rest (c.toNat - 48) else none

/-- Python `int(string)`: surrounding whitespace stripped, an optional
sign, then a non-empty digit run with optional single underscores
between digits; `none` models the raised `ValueError`. -/
def pyInt (s : String) : Option Int :=
  match stripPySpace s.data with
  | '-' :: rest => (pyIntDigits rest).map fun n => -(n : Int)
  | '+' :: rest => (pyIntDigits rest).map fun n => (n : Int)
  | cs => (pyIntDigits cs).map fun n => (n : Int)

/-- Python `int(value)`; `none` models the raised `ValueError`. -/
def PyVal.toIntOpt : PyVal → Option Int
  | .str s => pyInt s
  | .int n => some n

/-- products.models.Product. `stock_quantity` is a `PositiveIntegerField`
(holds a non-negative integer in the store); in the handler it is a plain
Python int, hence `Int` here. `image` is the optional upload reference. -/
structure Product where
  id : Nat
  name : String
  price : ℚ
  description : String
  image : Option String
  stock_quantity : Int
  created_date : Nat
  category : String
  user : Nat
deriving DecidableEq, Repr

/-- products.models.Rate: a rating row for a product. -/
structure Rate where
  id : Nat
  user : Nat
  product : Nat
  rating : Int
deriving DecidableEq, Repr

/-- products.models.Order: an order row. No uniqueness constraint is
declared on (user, product) in the model. -/
structure Order where
  id : Nat
  product : Nat
  quantity : Int
  user : Nat
deriving DecidableEq, Repr

/-- products.models.Review. -/
structure Review where
  id : Nat
  product : Nat
  user : Nat
  review : Option String
  review_date : Nat
deriving DecidableEq, Repr

/-- The relational store: user ids plus the four product-app tables.
`nextOrderId` models the autoincrement primary key of the orders table. -/
structure DB where
  users : List Nat
  products : List Product
  orders : List Order
  reviews : List Review
  rates : List Rate
  nextOrderId : Nat
deriving DecidableEq, Repr

/-- Outcomes of OrderViewSet.create_order, one per return branch, plus
`integrityError` for the unhandled IntegrityError (HTTP 500) the database
raises when the get-or-create INSERT violates the non-negativity
constraint of the Order.quantity PositiveIntegerField column. -/
inductive OrderOutcome where
  | notFound
  | quantityRequired
  | invalidQuantity
  | insufficientStock
  | created
  | alreadyExists
  | integrityError
deriving DecidableEq, Repr

/-- OrderViewSet.create_order (src/products/views.py lines 116-157):
load the product (404 if absent), reject an absent or falsy quantity,
reject an unparseable quantity, reject when stock < quantity, otherwise
decrement and save the stock and get-or-create the Order row keyed on
(user, product). Note the stock write happens before, and regardless of,
the get-or-create outcome. When no row exists yet and the parsed quantity
is negative, the INSERT breaks the database CHECK on the Order.quantity
PositiveIntegerField: get_or_create raises IntegrityError, no row is
stored, the response is an unhandled 500 — but the stock save has already
been committed (there is no enclosing transaction). -/
def place_order (db : DB) (actingUser pk : Nat) (rawQuantity : Option PyVal) :
    OrderOutcome × DB :=
  match db.products.find? (fun p => p.id == pk) with
  | none => (.notFound, db)
  | some product_to_order =>
    match rawQuantity with
    | none => (.quantityRequired, db)
    | some v =>
      if v.truthy = false then (.quantityRequired, db)
      else
        match v.toIntOpt with
        | none => (.invalidQuantity, db)
        | some quantity =>
          if product_to_order.stock_quantity < quantity then
            (.insufficientStock, db)
          else
            let updated :=
              { product_to_order with
                stock_quantity := product_to_order.stock_quantity - quantity }
            let db1 :=
              { db with
                products := db.products.map fun p : Product =>
                  if p.id == pk then updated else p }
            if db1.orders.any fun o => o.user == actingUser && o.product == pk then
              (.alreadyExists, db1)
            else if quantity < 0 then
              (.integrityError, db1)
            else
              (.created,
                { db1 with
                  orders := db1.orders ++ [(⟨db1.nextOrderId, pk, quantity, actingUser⟩ : Order)],
                  nextOrderId := db1.nextOrderId + 1 })

/-- One call of the order endpoint: acting user, product pk, raw quantity. -/
structure OrderCall where
  user : Nat
  pk : Nat
  quantity : Option PyVal
deriving Repr

/-- A sequence of create_order requests executed against the store, each
one succeeding or failing on its own. -/
def runOrders (db : DB) : List OrderCall → DB
  | [] => db
  | c :: cs => runOrders (place_order db c.user c.pk c.quantity).2 cs

/-- Outcome of the raw order-creation endpoint. -/
inductive RawCreateOutcome where
  | created (o : Order)
  | validationError
deriving DecidableEq, Repr

/-- The `create` action OrderViewSet inherits from ModelViewSet
(DRF CreateModelMixin.create, routed as POST /orders/ by the router
registration in src/products/urls.py line 9). OrderSerializer declares
`fields = [product, quantity, user]`, all writable, so validation only
checks that the referenced product and user rows exist and that the
quantity is a non-negative integer (PositiveIntegerField); the Order row
is then inserted directly, with no stock check and no get-or-create. -/
def orders_raw_create (db : DB) (productField : Nat) (quantityField : Int)
    (userField : Nat) : RawCreateOutcome × DB :=
  if (db.products.any fun p => p.id == productField) = false then
    (.validationError, db)
  else if (db.users.any fun u => u == userField) = false then
    (.validationError, db)
  else if quantityField < 0 then
    (.validationError, db)
  else
    let o : Order := ⟨db.nextOrderId, productField, quantityField, userField⟩
    (.created o,
      { db with orders := db.orders ++ [o], nextOrderId := db.nextOrderId + 1 })

/-- Number of Order rows in the store for a given (user, product) pair. -/
def ordersForPair (db : DB) (u pk : Nat) : Nat :=
  (db.orders.filter fun o => o.user == u && o.product == pk).length

/-- The (user, product) key of every Order row, in table order. -/
def orderPairs (db : DB) : List (Nat × Nat) :=
  db.orders.map fun o => (o.user, o.product)

/-! ## Catalog serializer (src/products/serializers.py) -/

/-- CATEGORY_CHOICES from src/products/models.py. -/
def CATEGORY_CHOICES : List String :=
  ["pants", "t-shirts", "shoes", "jerseys", "dresses", "socks", "shorts"]

/-- Request body for product create/update. `user` and `created_date`
are listed so that a client can send them; the serializer marks both
read-only, so they must be ignored. -/
structure ProductInput where
  name : Option String
  price : Option ℚ
  description : Option String
  image : Option String
  stock_quantity : Option Int
  category : Option String
  user : Option Nat
  created_date : Option Nat
deriving DecidableEq, Repr

/-- The writable fields that survive ProductSerializer validation;
each is present exactly when the client supplied it. -/
structure ProductValidated where
  name : Option String
  price : Option ℚ
  description : Option String
  image : Option String
  stock_quantity : Option Int
  category : Option String
deriving DecidableEq, Repr

/-- ProductSerializer.validate_name plus the CharField length bound. -/
def productNameOk (v : String) : Bool :=
  !(v == "") && v.length ≤ 100

/-- ProductSerializer.validate_price: price must lie in [0, 1000]. -/
def productPriceOk (v : ℚ) : Bool :=
  decide (0 ≤ v) && decide (v ≤ 1000)

/-- Description TextField: required, at most 500 characters. -/
def productDescriptionOk (v : String) : Bool :=
  !(v == "") && v.length ≤ 500

/-- ProductSerializer.validate_stock_quantity: quantity in [0, 100]. -/
def productStockOk (v : Int) : Bool :=
  decide (0 ≤ v) && decide (v ≤ 100)

/-- ChoiceField membership plus ProductSerializer.validate_category. -/
def productCategoryOk (v : String) : Bool :=
  !(v == "") && CATEGORY_CHOICES.contains v

/-- Running ProductSerializer validation: read-only fields (`user`,
`created_date`) are dropped before validation; each writable field is
validated when present; a required field (name, price, description,
category) that is absent fails unless this is a partial update.
`stock_quantity` has a model default and `image` is optional, so both
may be absent on a full update as well. -/
def productValidate (data : ProductInput) (partialFlag : Bool) :
    Option ProductValidated :=
  let reqOk : Bool :=
    partialFlag ||
      (data.name.isSome && data.price.isSome &&
        data.description.isSome && data.category.isSome)
  let fieldOk : Bool :=
    (match data.name with | none => true | some v => productNameOk v) &&
    (match data.price with | none => true | some v => productPriceOk v) &&
    (match data.description with | none => true | some v => productDescriptionOk v) &&
    (match data.stock_quantity with | none => true | some v => productStockOk v) &&
    (match data.category with | none => true | some v => productCategoryOk v)
  if reqOk && fieldOk then
    some ⟨data.name, data.price, data.description, data.image,
          data.stock_quantity, data.category⟩
  else none

/-- serializer.save on an existing instance: the supplied, validated
fields overwrite the instance fields; `user` and `created_date` are
read-only and keep their stored values. -/
def applyProductUpdate (inst : Product) (v : ProductValidated) : Product :=
  { inst with
    name := v.name.getD inst.name
    price := v.price.getD inst.price
    description := v.description.getD inst.description
    image := match v.image with | some i => some i | none => inst.image
    stock_quantity := v.stock_quantity.getD inst.stock_quantity
    category := v.category.getD inst.category }

/-- Outcomes of the ownership-gated mutating handlers. -/
inductive MutOutcome where
  | ok
  | permissionDenied
  | notFound
  | validationError
deriving DecidableEq, Repr

/-- ProductViewSet.update (src/products/views.py lines 51-61): load the
instance (404 if absent), raise PermissionDenied unless the acting user
owns it, then run the serializer and save. -/
def ProductViewSet_update (db : DB) (actingUser pk : Nat) (data : ProductInput) :
    MutOutcome × DB :=
  match db.products.find? (fun p => p.id == pk) with
  | none => (.notFound, db)
  | some inst =>
    if !(inst.user == actingUser) then (.permissionDenied, db)
    else
      match productValidate data false with
      | none => (.validationError, db)
      | some v =>
        let updated := applyProductUpdate inst v
        (.ok, { db with products := db.products.map fun p : Product =>
                  if p.id == pk then updated else p })

/-- ProductViewSet.partial_update (lines 63-73): same ownership gate,
serializer run with partial=True. -/
def ProductViewSet_partial_update (db : DB) (actingUser pk : Nat)
    (data : ProductInput) : MutOutcome × DB :=
  match db.products.find? (fun p => p.id == pk) with
  | none => (.notFound, db)
  | some inst =>
    if !(inst.user == actingUser) then (.permissionDenied, db)
    else
      match productValidate data true with
      | none => (.validationError, db)
      | some v =>
        let updated := applyProductUpdate inst v
        (.ok, { db with products := db.products.map fun p : Product =>
                  if p.id == pk then updated else p })

/-- ProductViewSet.destroy (lines 75-82): ownership-gated delete; the
foreign keys on Order, Review and Rate cascade with the product. -/
def ProductViewSet_destroy (db : DB) (actingUser pk : Nat) : MutOutcome × DB :=
  match db.products.find? (fun p => p.id == pk) with
  | none => (.notFound, db)
  | some inst =>
    if !(inst.user == actingUser) then (.permissionDenied, db)
    else
      (.ok, { db with
        products := db.products.filter fun p => !(p.id == pk)
        orders := db.orders.filter fun o => !(o.product == pk)
        reviews := db.reviews.filter fun r => !(r.product == pk)
        rates := db.rates.filter fun r => !(r.product == pk) })

/-- Request body for review update; `review_date` is read-only. -/
structure ReviewInput where
  product : Option Nat
  review : Option String
  review_date : Option Nat
deriving DecidableEq, Repr

/-- Validated writable review fields. -/
structure ReviewValidated where
  product : Option Nat
  review : Option String
deriving DecidableEq, Repr

/-- ReviewSerializer validation: `review_date` is dropped (read-only);
`product` must reference an existing product and is required on a full
update; `review` is optional (blank/null allowed, length ≤ 100). -/
def reviewValidate (db : DB) (data : ReviewInput) (partialFlag : Bool) :
    Option ReviewValidated :=
  let reqOk : Bool := partialFlag || data.product.isSome
  let productOk : Bool :=
    match data.product with
    | none => true
    | some pid => db.products.any fun p => p.id == pid
  let reviewOk : Bool :=
    match data.review with
    | none => true
    | some s => s.length ≤ 100
  if reqOk && productOk && reviewOk then some ⟨data.product, data.review⟩
  else none

/-- serializer.save for a review instance. -/
def applyReviewUpdate (inst : Review) (v : ReviewValidated) : Review :=
  { inst with
    product := v.product.getD inst.product
    review := match v.review with | some s => some s | none => inst.review }

/-- ReviewViewSet.update (src/products/views.py lines 210-220). -/
def ReviewViewSet_update (db : DB) (actingUser pk : Nat) (data : ReviewInput) :
    MutOutcome × DB :=
  match db.reviews.find? (fun r => r.id == pk) with
  | none => (.notFound, db)
  | some inst =>
    if !(inst.user == actingUser) then (.permissionDenied, db)
    else
      match reviewValidate db data false with
      | none => (.validationError, db)
      | some v =>
        let updated := applyReviewUpdate inst v
        (.ok, { db with reviews := db.reviews.map fun r : Review =>
                  if r.id == pk then updated else r })

/-- ReviewViewSet.partial_update (lines 222-232). -/
def ReviewViewSet_partial_update (db : DB) (actingUser pk : Nat)
    (data : ReviewInput) : MutOutcome × DB :=
  match db.reviews.find? (fun r => r.id == pk) with
  | none => (.notFound, db)
  | some inst =>
    if !(inst.user == actingUser) then (.permissionDenied, db)
    else
      match reviewValidate db data true with
      | none => (.validationError, db)
      | some v =>
        let updated := applyReviewUpdate inst v
        (.ok, { db with reviews := db.reviews.map fun r : Review =>
                  if r.id == pk then updated else r })

/-- ReviewViewSet.destroy (lines 234-241). -/
def ReviewViewSet_destroy (db : DB) (actingUser pk : Nat) : MutOutcome × DB :=
  match db.reviews.find? (fun r => r.id == pk) with
  | none => (.notFound, db)
  | some inst =>
    if !(inst.user == actingUser) then (.permissionDenied, db)
    else
      (.ok, { db with reviews := db.reviews.filter fun r => !(r.id == pk) })

/-! ## Order detail endpoints (src/products/views.py lines 159-185) -/

/-- The class attribute OrderViewSet.queryset. OrderViewSet never assigns
one (hence the explicit basename in src/products/urls.py line 9), so the
value is the GenericAPIView default, Python None — modelled as a function
from the store to an optional row list that is constantly `none`. -/
def OrderViewSet_queryset : DB → Option (List Order) := fun _ => none

/-- Outcome of an order detail lookup. -/
inductive DetailOutcome where
  | ok (o : Order)
  | notFound
  | serverError
deriving DecidableEq, Repr

/-- django.shortcuts.get_object_or_404 applied to an optional queryset:
passing Python None raises
ValueError (first argument must be a Model, Manager or QuerySet), an
unhandled exception; a real queryset yields the first matching row or
raises Http404. -/
def get_object_or_404_order (qs : Option (List Order)) (matching : Order → Bool) :
    DetailOutcome :=
  match qs with
  | none => .serverError
  | some rows =>
    match rows.find? matching with
    | some o => .ok o
    | none => .notFound

/-- OrderViewSet.retrieve (lines 159-163):
get_object_or_404(self.queryset, pk=pk, user=request.user). -/
def OrderViewSet_retrieve (db : DB) (actingUser pk : Nat) : DetailOutcome :=
  get_object_or_404_order (OrderViewSet_queryset db)
    (fun o => o.id == pk && o.user == actingUser)

/-- OrderViewSet.destroy (lines 181-185): same lookup, then delete. -/
def OrderViewSet_destroy (db : DB) (actingUser pk : Nat) : DetailOutcome × DB :=
  match get_object_or_404_order (OrderViewSet_queryset db)
      (fun o => o.id == pk && o.user == actingUser) with
  | .serverError => (.serverError, db)
  | .notFound => (.notFound, db)
  | .ok o => (.ok o, { db with orders := db.orders.filter fun x => !(x.id == o.id) })

/-! ## Average rating (src/products/serializers.py lines 20-31) -/

/-- The Rate.rating values associated with a product, in table order
(obj.ratings via the related_name on Rate.product). -/
def productRatings (db : DB) (pid : Nat) : List Int :=
  (db.rates.filter fun r => r.product == pid).map fun r => r.rating

/-- Django aggregate Avg over a rating column: None on an empty set,
otherwise the arithmetic mean as an exact rational. -/
def aggregateAvgRating (ratings : List Int) : Option ℚ :=
  if ratings = [] then none
  else some ((ratings.map (Int.cast : Int → ℚ)).sum / (ratings.length : ℚ))

/-- ProductSerializer.get_average_rating: the aggregate value, with None
replaced by 0. -/
def get_average_rating (ratings : List Int) : ℚ :=
  match aggregateAvgRating ratings with
  | some a => a
  | none => 0

/-! ## Identity store (src/users/serializers.py, src/users/views.py) -/

/-- A user account row; the password stands for the stored (hashed)
credential, compared for equality by the auth backend. -/
structure AuthUser where
  id : Nat
  username : String
  password : String
deriving DecidableEq, Repr

/-- The identity-store state: account rows plus the DRF token table,
one (user id, token key) row per token. -/
structure AuthState where
  users : List AuthUser
  tokens : List (Nat × Nat)
deriving DecidableEq, Repr

/-- django.contrib.auth.authenticate: the user whose username and
credential both match, if any. -/
def authenticate (st : AuthState) (username password : String) : Option AuthUser :=
  st.users.find? fun u => u.username == username && u.password == password

/-- Token.objects.get_or_create(user=user) from
LoginSerializer.to_representation: return the existing token row for the
user, or insert one with a fresh key. -/
def token_get_or_create (st : AuthState) (userId freshKey : Nat) :
    Nat × AuthState :=
  match st.tokens.find? (fun t => t.1 == userId) with
  | some t => (t.2, st)
  | none => (freshKey, { st with tokens := st.tokens ++ [(userId, freshKey)] })

/-- Outcome of POST /users/login/. -/
inductive LoginOutcome where
  | success (token : Nat)
  | invalidCredentials
deriving DecidableEq, Repr

/-- users.views.login: LoginSerializer.validate authenticates the
credentials (ValidationError on failure) and to_representation returns
the got-or-created token key. -/
def login (st : AuthState) (username password : String) (freshKey : Nat) :
    LoginOutcome × AuthState :=
  match authenticate st username password with
  | none => (.invalidCredentials, st)
  | some u =>
    let r := token_get_or_create st u.id freshKey
    (.success r.1, r.2)

/-- LogoutAPIView.post: delete the acting user's token row; error when
none exists. -/
def logout (st : AuthState) (userId : Nat) : Bool × AuthState :=
  if st.tokens.any fun t => t.1 == userId then
    (true, { st with tokens := st.tokens.filter fun t => !(t.1 == userId) })
  else (false, st)

/-! ## Product creation (src/products/views.py lines 36-49) -/

/-- Outcome of ProductViewSet.create. -/
inductive CreateOutcome where
  | created (p : Product)
  | validationError
deriving DecidableEq, Repr

/-- ProductViewSet.create: validate the request body through
ProductSerializer (read-only fields dropped), then perform_create saves
with user=request.user; created_date is auto_now_add (server time `now`)
and the id is the fresh primary key `newId`. A client-sent `user` or
`created_date` never reaches validated_data. -/
def ProductViewSet_create (db : DB) (actingUser : Nat) (data : ProductInput)
    (now newId : Nat) : CreateOutcome × DB :=
  match productValidate data false with
  | none => (.validationError, db)
  | some v =>
    let p : Product :=
      { id := newId
        name := v.name.getD ""
        price := v.price.getD 0
        description := v.description.getD ""
        image := v.image
        stock_quantity := v.stock_quantity.getD 0
        created_date := now
        category := v.category.getD ""
        user := actingUser }
    (.created p, { db with products := db.products ++ [p] })

/-! ## Helper lemmas -/

/-- One create_order call keeps every stock_quantity non-negative: the
product table is either untouched, or rewritten with the ordered product
holding `stock - quantity`, which the stock check made non-negative. -/
theorem place_order_stock_nonneg (db : DB) (u pk : Nat) (q : Option PyVal)
    (h : ∀ p ∈ db.products, 0 ≤ p.stock_quantity) :
    ∀ p ∈ (place_order db u pk q).2.products, 0 ≤ p.stock_quantity := by
  unfold place_order
  split
  · exact h
  next prod hfind =>
    split
    · exact h
    next v =>
      split
      · exact h
      · split
        · exact h
        next quantity hparse =>
          split
          · exact h
          next hstock =>
            dsimp only
            intro p hp
            have hmem : p ∈ db.products.map (fun x : Product =>
                if x.id == pk then
                  { prod with stock_quantity := prod.stock_quantity - quantity }
                else x) := by
              revert hp
              split
              · exact id
              · split
                · exact id
                · exact id
            simp only [List.mem_map] at hmem
            obtain ⟨a, ha, rfl⟩ := hmem
            split
            · simp only
              omega
            · exact h a ha

/-- After one create_order call the order table is either unchanged or
extended with one row keyed by the acting user and the requested pk,
appended only when no row with that key was present. -/
theorem place_order_orders_cases (db : DB) (u pk : Nat) (q : Option PyVal) :
    (place_order db u pk q).2.orders = db.orders ∨
    ((db.orders.any fun o => o.user == u && o.product == pk) = false ∧
      ∃ quantity, (place_order db u pk q).2.orders =
        db.orders ++ [⟨db.nextOrderId, pk, quantity, u⟩]) := by
  unfold place_order
  split
  · exact Or.inl rfl
  next prod hfind =>
    split
    · exact Or.inl rfl
    next v =>
      split
      · exact Or.inl rfl
      · split
        · exact Or.inl rfl
        next quantity hparse =>
          split
          · exact Or.inl rfl
          next hstock =>
            dsimp only
            split
            next hdup => exact Or.inl rfl
            next hdup =>
              split
              · exact Or.inl rfl
              · refine Or.inr ⟨by simpa using hdup, quantity, rfl⟩

/-! ## Concrete stores for the witnesses -/

/-- A small concrete store: users 1 and 2, one product (pk 1, stock 5)
owned by user 2, no orders yet. -/
def sampleDB : DB :=
  { users := [1, 2]
    products := [⟨1, "shirt", 10, "plain tee", none, 5, 0, "t-shirts", 2⟩]
    orders := []
    reviews := []
    rates := []
    nextOrderId := 1 }

/-- The store of the spec scenario after user 1 ordered 3 of product 1:
stock is down to 2 and one Order row exists for (user 1, product 1). -/
def sampleOrderedDB : DB :=
  { users := [1, 2]
    products := [⟨1, "shirt", 10, "plain tee", none, 2, 0, "t-shirts", 2⟩]
    orders := [⟨1, 1, 3, 1⟩]
    reviews := []
    rates := []
    nextOrderId := 2 }

/-! ## Claims -/

/-- C1: for every product and every sequence of place_order calls (each
either succeeding or failing), the stock_quantity of every product in the
store is still an integer greater than or equal to zero afterwards. -/
theorem C1_stock_nonneg_after_any_order_sequence (db : DB)
    (calls : List OrderCall)
    (h : ∀ p ∈ db.products, 0 ≤ p.stock_quantity) :
    ∀ p ∈ (runOrders db calls).products, 0 ≤ p.stock_quantity := by
  induction calls generalizing db with
  | nil => exact h
  | cons c cs ih =>
    exact ih (place_order db c.user c.pk c.quantity).2
      (place_order_stock_nonneg db c.user c.pk c.quantity h)

/-- Witness for C1: a concrete run of three orders (one succeeding, one
rejected for stock, one hitting the duplicate branch) keeps stock at or
above zero. -/
theorem C1_witness :
    (∀ p ∈ sampleDB.products, 0 ≤ p.stock_quantity) ∧
    (∀ p ∈ (runOrders sampleDB
        [⟨1, 1, some (.int 3)⟩, ⟨1, 1, some (.int 9)⟩, ⟨1, 1, some (.int 1)⟩]).products,
      0 ≤ p.stock_quantity) :=
  ⟨by decide, C1_stock_nonneg_after_any_order_sequence sampleDB _ (by decide)⟩

/-- C2: when the requested quantity exceeds the product's (non-negative)
stock, place_order answers InsufficientStock and the store — stock, order
rows and everything else — is returned unchanged. -/
theorem C2_insufficient_stock_no_mutation (db : DB) (u pk : Nat) (q : Int)
    (prod : Product)
    (hfind : db.products.find? (fun p => p.id == pk) = some prod)
    (hstock : 0 ≤ prod.stock_quantity)
    (hgt : prod.stock_quantity < q) :
    place_order db u pk (some (.int q)) = (.insufficientStock, db) := by
  have hq : q ≠ 0 := by omega
  unfold place_order
  rw [hfind]
  simp [PyVal.truthy, PyVal.toIntOpt, hq, hgt]

/-- Witness for C2: ordering 9 from a stock of 5 is rejected without
mutation. -/
theorem C2_witness :
    place_order sampleDB 1 1 (some (.int 9)) = (.insufficientStock, sampleDB) :=
  C2_insufficient_stock_no_mutation sampleDB 1 1 9
    ⟨1, "shirt", 10, "plain tee", none, 5, 0, "t-shirts", 2⟩
    (by decide) (by decide) (by decide)

/-- C3: when an Order row for (user, product) already exists and the
parsed quantity is covered by stock, place_order answers AlreadyExists,
appends no second Order row (the order table is unchanged), and still
decrements the product's stock by the requested quantity. -/
theorem C3_duplicate_order_still_decrements (db : DB) (u pk : Nat)
    (v : PyVal) (q : Int) (prod : Product)
    (hfind : db.products.find? (fun p => p.id == pk) = some prod)
    (htruthy : v.truthy = true)
    (hparse : v.toIntOpt = some q)
    (hq : q ≤ prod.stock_quantity)
    (hdup : (db.orders.any fun o => o.user == u && o.product == pk) = true) :
    place_order db u pk (some v) =
      (.alreadyExists,
        { db with products := db.products.map fun p : Product =>
            if p.id == pk then
              { prod with stock_quantity := prod.stock_quantity - q }
            else p }) := by
  unfold place_order
  rw [hfind]
  simp [htruthy, hparse, not_lt.2 hq, hdup]

/-- Witness for C3: the spec scenario — user 1 re-orders product 1 with
quantity 1 from the ordered store; the call reports AlreadyExists yet the
stock drops from 2 to 1 and the order table still holds one row. -/
theorem C3_witness :
    place_order sampleOrderedDB 1 1 (some (.int 1)) =
      (.alreadyExists,
        { sampleOrderedDB with
          products := sampleOrderedDB.products.map fun p : Product =>
            if p.id == 1 then
              { (⟨1, "shirt", 10, "plain tee", none, 2, 0, "t-shirts", 2⟩ : Product) with
                stock_quantity := 2 - 1 }
            else p }) :=
  C3_duplicate_order_still_decrements sampleOrderedDB 1 1 (.int 1) 1
    ⟨1, "shirt", 10, "plain tee", none, 2, 0, "t-shirts", 2⟩
    (by decide) (by decide) (by decide) (by decide) (by decide)

/-- Counterexample to C4 as stated: create_order never rejects a
non-positive quantity. The string "0" is truthy and parses to 0, so the
placement proceeds all the way to a created Order row of quantity 0; the
string "-3" likewise passes every validation check and raises the stock
from 5 to 8 before the row insert dies on the database constraint (an
unhandled 500, not a validation rejection — and the stock mutation
stays). -/
theorem C4_counterexample :
    (place_order sampleDB 1 1 (some (.str "0"))).1 = .created ∧
    (place_order sampleDB 1 1 (some (.str "0"))).2.orders = [⟨1, 1, 0, 1⟩] ∧
    (place_order sampleDB 1 1 (some (.str "-3"))).1 = .integrityError ∧
    (place_order sampleDB 1 1 (some (.str "-3"))).2.orders = [] ∧
    (place_order sampleDB 1 1 (some (.str "-3"))).2.products =
      [⟨1, "shirt", 10, "plain tee", none, 8, 0, "t-shirts", 2⟩] := by
  refine ⟨by decide, by decide, by decide, by decide, by decide⟩

/-- C4 amended: an absent or falsy quantity fails with ValidationError
("Quantity is required"), a truthy quantity that does not parse as an
integer fails with ValidationError ("Invalid quantity value"), and a
parseable quantity covered by stock is never rejected by the quantity
validation — whatever its sign (zero creates a quantity-0 row; a negative
one mutates stock and then dies on the database constraint, not on any
validation). -/
theorem C4_amended_quantity_validation (db : DB) (u pk : Nat) (prod : Product)
    (hfind : db.products.find? (fun p => p.id == pk) = some prod) :
    place_order db u pk none = (.quantityRequired, db) ∧
    (∀ v : PyVal, v.truthy = false →
      place_order db u pk (some v) = (.quantityRequired, db)) ∧
    (∀ v : PyVal, v.truthy = true → v.toIntOpt = none →
      place_order db u pk (some v) = (.invalidQuantity, db)) ∧
    (∀ (v : PyVal) (q : Int), v.truthy = true → v.toIntOpt = some q →
      ¬ prod.stock_quantity < q →
      (place_order db u pk (some v)).1 ≠ .quantityRequired ∧
      (place_order db u pk (some v)).1 ≠ .invalidQuantity ∧
      (place_order db u pk (some v)).1 ≠ .insufficientStock) := by
  refine ⟨?_, ?_, ?_, ?_⟩
  · unfold place_order
    rw [hfind]
  · intro v hv
    unfold place_order
    rw [hfind]
    simp [hv]
  · intro v hv hparse
    unfold place_order
    rw [hfind]
    simp [hv, hparse]
  · intro v q hv hparse hstock
    unfold place_order
    rw [hfind]
    simp only [hv, Bool.true_eq_false, if_false, hparse, if_neg hstock]
    split
    · exact ⟨by simp, by simp, by simp⟩
    · split <;> exact ⟨by simp, by simp, by simp⟩

/-- Witness for C4 amended: the three behaviors at concrete inputs — a
missing quantity, the falsy integer 0, the unparseable string "abc", and
the non-positive string "0" that still passes validation. -/
theorem C4_witness :
    place_order sampleDB 1 1 none = (.quantityRequired, sampleDB) ∧
    place_order sampleDB 1 1 (some (.int 0)) = (.quantityRequired, sampleDB) ∧
    place_order sampleDB 1 1 (some (.str "abc")) = (.invalidQuantity, sampleDB) ∧
    (place_order sampleDB 1 1 (some (.str "0"))).1 ≠ .insufficientStock := by
  obtain ⟨h1, h2, h3, h4⟩ := C4_amended_quantity_validation sampleDB 1 1
    ⟨1, "shirt", 10, "plain tee", none, 5, 0, "t-shirts", 2⟩ (by decide)
  exact ⟨h1, h2 (.int 0) (by decide), h3 (.str "abc") (by decide) (by decide),
    (h4 (.str "0") 0 (by decide) (by decide) (by decide)).2.2⟩

/-- Counterexample to C5 as stated: OrderViewSet inherits the raw
creation action from ModelViewSet (POST /orders/, routed in urls.py), and
two raw creations for the same (user, product) pair leave two Order rows
in the store. -/
theorem C5_counterexample :
    ordersForPair
      ((orders_raw_create ((orders_raw_create sampleDB 1 2 1).2) 1 2 1).2) 1 1 = 2 := by
  decide

/-- C5 amended: the order workflow itself never duplicates a pair — if
the (user, product) keys of the order table are pairwise distinct, they
stay pairwise distinct under any sequence of place_order calls; the
raw creation endpoint inherited from ModelViewSet is what breaks the
invariant. -/
theorem C5_amended_workflow_pair_unique (db : DB) (calls : List OrderCall)
    (h : (orderPairs db).Nodup) :
    (orderPairs (runOrders db calls)).Nodup := by
  induction calls generalizing db with
  | nil => exact h
  | cons c cs ih =>
    refine ih _ ?_
    rcases place_order_orders_cases db c.user c.pk c.quantity with hsame | ⟨hno, q, happ⟩
    · unfold orderPairs
      rw [hsame]
      exact h
    · unfold orderPairs at h ⊢
      rw [happ, List.map_append]
      rw [List.nodup_append]
      refine ⟨h, by simp, ?_⟩
      intro a ha ha2
      simp only [List.map_cons, List.map_nil, List.mem_singleton] at ha2
      subst ha2
      obtain ⟨o, ho, hoeq⟩ := List.mem_map.mp ha
      have hno' := List.any_eq_false.mp hno o ho
      simp only [Bool.and_eq_true, beq_iff_eq, not_and] at hno'
      exact hno' (congrArg Prod.fst hoeq) (congrArg Prod.snd hoeq)

/-- Witness for C5 amended: from the sample store with distinct pair
keys, a successful and then a duplicate-rejected order keep the keys
pairwise distinct. -/
theorem C5_witness :
    (orderPairs sampleDB).Nodup ∧
    (orderPairs (runOrders sampleDB
      [⟨1, 1, some (.int 2)⟩, ⟨1, 1, some (.int 1)⟩])).Nodup :=
  ⟨by decide, C5_amended_workflow_pair_unique sampleDB _ (by decide)⟩

/-- A store with one product and one review, both owned by user 2, for
the ownership witnesses. -/
def sampleOwnedDB : DB :=
  { users := [1, 2]
    products := [⟨1, "shirt", 10, "plain tee", none, 5, 0, "t-shirts", 2⟩]
    orders := []
    reviews := [⟨1, 1, 2, some "nice", 0⟩]
    rates := []
    nextOrderId := 1 }

/-- C6: an authenticated user who does not own a Product or Review gets
PermissionDenied from update, partial_update and destroy, and the store
is left entirely unchanged. -/
theorem C6_non_owner_mutations_denied (db : DB) (u ppk rpk : Nat)
    (pdata : ProductInput) (rdata : ReviewInput) (prod : Product) (rev : Review)
    (hp : db.products.find? (fun x => x.id == ppk) = some prod)
    (hpo : prod.user ≠ u)
    (hr : db.reviews.find? (fun x => x.id == rpk) = some rev)
    (hro : rev.user ≠ u) :
    ProductViewSet_update db u ppk pdata = (.permissionDenied, db) ∧
    ProductViewSet_partial_update db u ppk pdata = (.permissionDenied, db) ∧
    ProductViewSet_destroy db u ppk = (.permissionDenied, db) ∧
    ReviewViewSet_update db u rpk rdata = (.permissionDenied, db) ∧
    ReviewViewSet_partial_update db u rpk rdata = (.permissionDenied, db) ∧
    ReviewViewSet_destroy db u rpk = (.permissionDenied, db) := by
  refine ⟨?_, ?_, ?_, ?_, ?_, ?_⟩
  · unfold ProductViewSet_update
    rw [hp]
    simp [hpo]
  · unfold ProductViewSet_partial_update
    rw [hp]
    simp [hpo]
  · unfold ProductViewSet_destroy
    rw [hp]
    simp [hpo]
  · unfold ReviewViewSet_update
    rw [hr]
    simp [hro]
  · unfold ReviewViewSet_partial_update
    rw [hr]
    simp [hro]
  · unfold ReviewViewSet_destroy
    rw [hr]
    simp [hro]

/-- Witness for C6: user 1 attempting all six mutations on the product
and review owned by user 2 is denied each time and nothing changes. -/
theorem C6_witness :
    ProductViewSet_update sampleOwnedDB 1 1
        ⟨some "x", some 1, some "d", none, some 1, some "socks", none, none⟩ =
      (.permissionDenied, sampleOwnedDB) ∧
    ProductViewSet_partial_update sampleOwnedDB 1 1
        ⟨none, none, none, none, none, none, none, none⟩ =
      (.permissionDenied, sampleOwnedDB) ∧
    ProductViewSet_destroy sampleOwnedDB 1 1 = (.permissionDenied, sampleOwnedDB) ∧
    ReviewViewSet_update sampleOwnedDB 1 1 ⟨some 1, some "bad", none⟩ =
      (.permissionDenied, sampleOwnedDB) ∧
    ReviewViewSet_partial_update sampleOwnedDB 1 1 ⟨none, none, none⟩ =
      (.permissionDenied, sampleOwnedDB) ∧
    ReviewViewSet_destroy sampleOwnedDB 1 1 = (.permissionDenied, sampleOwnedDB) :=
  C6_non_owner_mutations_denied sampleOwnedDB 1 1 1
    ⟨some "x", some 1, some "d", none, some 1, some "socks", none, none⟩
    ⟨some 1, some "bad", none⟩
    ⟨1, "shirt", 10, "plain tee", none, 5, 0, "t-shirts", 2⟩
    ⟨1, 1, 2, some "nice", 0⟩
    (by decide) (by decide) (by decide) (by decide)

/-- C7 (code defect): OrderViewSet never assigns a queryset, so the
attribute is the GenericAPIView default None and every order detail
action hands None to get_object_or_404, which raises ValueError — an
unhandled server error — for every caller and pk, owner or not; no branch
can produce the scoped NotFound the spec describes. -/
theorem C7_order_detail_always_server_error (db : DB) (u pk : Nat) :
    OrderViewSet_retrieve db u pk = .serverError ∧
    OrderViewSet_destroy db u pk = (.serverError, db) :=
  ⟨rfl, rfl⟩

/-- Casting each Int of a list to ℚ and summing equals casting the sum. -/
theorem sum_cast_list (l : List Int) :
    (l.map (Int.cast : Int → ℚ)).sum = (l.sum : ℚ) := by
  induction l with
  | nil => simp
  | cons a t ih =>
    simp only [List.map_cons, List.sum_cons, List.sum_cons, ih]
    push_cast
    ring

/-- C8: get_average_rating returns the arithmetic mean of the Rate.rating
values attached to the product, and the value 0 — not null and not an
error — when the product has no ratings. -/
theorem C8_average_rating_mean_or_zero (db : DB) (pid : Nat) :
    get_average_rating (productRatings db pid) =
      if productRatings db pid = [] then 0
      else ((productRatings db pid).sum : ℚ) / ((productRatings db pid).length : ℚ) := by
  unfold get_average_rating aggregateAvgRating
  by_cases h : productRatings db pid = []
  · simp [h]
  · rw [if_neg h]
    show ((productRatings db pid).map (Int.cast : Int → ℚ)).sum /
        ((productRatings db pid).length : ℚ) = _
    rw [if_neg h, sum_cast_list]

/-- get_or_create of a token never touches the account table. -/
theorem token_get_or_create_users (st : AuthState) (uid f : Nat) :
    (token_get_or_create st uid f).2.users = st.users := by
  unfold token_get_or_create
  split <;> rfl

/-- Running get_or_create again for the same user returns the token of
the first run and leaves the token table as the first run left it. -/
theorem token_get_or_create_stable (st : AuthState) (uid f f' : Nat) :
    token_get_or_create (token_get_or_create st uid f).2 uid f' =
      ((token_get_or_create st uid f).1, (token_get_or_create st uid f).2) := by
  cases hfind : st.tokens.find? (fun t => t.1 == uid) with
  | some t => simp [token_get_or_create, hfind]
  | none => simp [token_get_or_create, hfind, List.find?_append]

/-- C9: authentication is token-idempotent — after a successful login
returned token k, logging in again with the same valid credentials (and
no intervening revocation) returns the same token k and leaves the
identity store exactly as it was. -/
theorem C9_login_token_idempotent (st : AuthState) (username password : String)
    (f1 f2 k : Nat) (st' : AuthState)
    (h : login st username password f1 = (.success k, st')) :
    login st' username password f2 = (.success k, st') := by
  unfold login at h ⊢
  cases hauth : authenticate st username password with
  | none =>
    rw [hauth] at h
    exact LoginOutcome.noConfusion (congrArg Prod.fst h)
  | some u =>
    rw [hauth] at h
    dsimp only at h
    have hk : LoginOutcome.success (token_get_or_create st u.id f1).1 =
        .success k := congrArg Prod.fst h
    injection hk with hk
    have h2 : (token_get_or_create st u.id f1).2 = st' := congrArg Prod.snd h
    have hauth' : authenticate st' username password = some u := by
      unfold authenticate
      rw [show st'.users = st.users from by rw [← h2, token_get_or_create_users]]
      exact hauth
    rw [hauth']
    dsimp only
    rw [← h2, token_get_or_create_stable]
    rw [hk, h2]

/-- The identity store right after the first login of user alice
created token 7 for her. -/
def sampleAuthDB : AuthState :=
  { users := [⟨1, "alice", "pw"⟩], tokens := [(1, 7)] }

/-- Witness for C9: logging alice in again, with a different fresh key
available, still answers token 7 and changes nothing. -/
theorem C9_witness :
    login sampleAuthDB "alice" "pw" 99 = (.success 7, sampleAuthDB) :=
  C9_login_token_idempotent ⟨[⟨1, "alice", "pw"⟩], []⟩ "alice" "pw" 7 99 7
    sampleAuthDB (by decide)

/-- C10: product creation does not depend on any client-supplied user or
created_date — two requests by the same acting user that differ only in
those two body fields yield identical outcomes and stores — and a created
product's owner is the acting identity. -/
theorem C10_create_ignores_client_identity_fields (db : DB) (u : Nat)
    (d1 d2 : ProductInput) (now newId : Nat)
    (hname : d1.name = d2.name) (hprice : d1.price = d2.price)
    (hdesc : d1.description = d2.description) (himg : d1.image = d2.image)
    (hstock : d1.stock_quantity = d2.stock_quantity)
    (hcat : d1.category = d2.category) :
    ProductViewSet_create db u d1 now newId =
      ProductViewSet_create db u d2 now newId ∧
    ∀ p db', ProductViewSet_create db u d1 now newId = (.created p, db') →
      p.user = u := by
  have hv : productValidate d1 false = productValidate d2 false := by
    unfold productValidate
    rw [hname, hprice, hdesc, himg, hstock, hcat]
  constructor
  · unfold ProductViewSet_create
    rw [hv]
  · intro p db' hcreated
    unfold ProductViewSet_create at hcreated
    cases hval : productValidate d1 false with
    | none =>
      rw [hval] at hcreated
      exact CreateOutcome.noConfusion (congrArg Prod.fst hcreated)
    | some v =>
      rw [hval] at hcreated
      dsimp only at hcreated
      have h1 := congrArg Prod.fst hcreated
      injection h1 with hp
      rw [← hp]

/-- Witness for C10: same body, once with a forged user 999 and a forged
created_date and once without either; the results coincide and the owner
is the acting user 1. -/
theorem C10_witness :
    ProductViewSet_create sampleDB 1
        ⟨some "cap", some 20, some "warm", none, some 3, some "socks",
          some 999, some 123⟩ 5 7 =
      ProductViewSet_create sampleDB 1
        ⟨some "cap", some 20, some "warm", none, some 3, some "socks",
          none, none⟩ 5 7 ∧
    ∀ p db', ProductViewSet_create sampleDB 1
        ⟨some "cap", some 20, some "warm", none, some 3, some "socks",
          some 999, some 123⟩ 5 7 = (.created p, db') → p.user = 1 :=
  C10_create_ignores_client_identity_fields sampleDB 1 _ _ 5 7
    rfl rfl rfl rfl rfl rfl

end Campstone
